import Mathlib

/-!
Verification of the Sentinel self-healing knowledge graph.

This file gives a shallow embedding of the repository's core data model and
operations, and proves the frozen claims about them.

The repository package sentinel_core only ships its interface file
(sentinel_core/__init__.py): the modules models.py, graph_store.py and
orchestrator.py that it re-exports (GraphNode, TemporalEdge, GraphData,
GraphManager, Sentinel) are not present under src/.  Those parts are
modelled here from the specification (spec sections 3, 4.1 and 4.4.1) and
from the shapes pinned by the repository's tests; each such definition
carries a doc comment starting with "Modelled from the spec:".

The query engine (sentinel_service/query_engine.py) and the HTTP facade
(sentinel_platform/api/main.py) are present in the source and are embedded
from the code directly.

Timestamps are modelled as natural numbers counting seconds (UTC instants);
property maps as association lists of strings; confidence scores as
rationals.
-/

/-- Modelled from the spec: an Entity node -- stable string id, a label and a
free-form scalar property map (models sentinel_core.models.GraphNode, absent
from src/). -/
structure GraphNode where
  id : String
  label : String
  properties : List (String × String)
deriving DecidableEq, Repr

/-- Modelled from the spec: a bitemporal edge (models
sentinel_core.models.TemporalEdge, absent from src/).  valid_to = none is the
spec's bottom: the edge is currently asserted. -/
structure TemporalEdge where
  source : String
  target : String
  relation : String
  properties : List (String × String)
  valid_from : Nat
  valid_to : Option Nat := none
  last_verified : Nat := 0
  verification_count : Nat := 0
  source_url : String := ""
  confidence : Rat := 1/2
deriving DecidableEq, Repr

/-- Modelled from the spec: a bundle of entities and proposed edges applied as
one logical assertion (models sentinel_core.models.GraphData, absent from
src/). -/
structure GraphData where
  nodes : List GraphNode
  edges : List TemporalEdge
deriving DecidableEq, Repr

/-- Modelled from the spec: the stats record returned by upsert_data. -/
structure UpsertStats where
  nodes_created : Nat := 0
  nodes_updated : Nat := 0
  edges_created : Nat := 0
  edges_verified : Nat := 0
  edges_invalidated : Nat := 0
deriving DecidableEq, Repr

/-- Modelled from the spec: per-URL document state -- the most recent
content_hash observed and the last_checked timestamp. -/
structure DocState where
  content_hash : String
  last_checked : Nat
deriving DecidableEq, Repr

/-- Modelled from the spec: the store's persisted state -- entity nodes, all
temporal edge rows (live and closed), and document states keyed by
source_url. -/
structure GraphState where
  nodes : List GraphNode
  edges : List TemporalEdge
  docs : List (String × DocState)
deriving DecidableEq, Repr

/-- The empty store. -/
def GraphState.empty : GraphState := ⟨[], [], []⟩

/-- An edge is live when its valid_to is the spec's bottom. -/
def TemporalEdge.isLive (e : TemporalEdge) : Bool := e.valid_to = none

/-- Two edge rows connect the same endpoints with the same relation. -/
def sameKey (a b : TemporalEdge) : Bool :=
  a.source = b.source && a.relation = b.relation && a.target = b.target

/-- Two edge rows have the same content: same endpoints, relation and property
map.  The spec's content hash H is a SHA-256 digest of exactly these fields
(section 3), and its invariant 4 treats H-equality as content equality, so the
store model compares the hash preimage directly. -/
def sameContent (a b : TemporalEdge) : Bool :=
  sameKey a b && a.properties = b.properties

/-- Last-writer-wins union of property maps: keys of the new map overwrite
matching keys of the old map. -/
def mergeProps (old new : List (String × String)) : List (String × String) :=
  old.filter (fun kv => !(new.any (fun kv2 => kv2.1 = kv.1))) ++ new

/-- Modelled from the spec: MERGE one entity on id, union property maps (new
values overwrite matching keys).  Returns the node list and whether a node was
created. -/
def upsertNode : List GraphNode → GraphNode → List GraphNode × Bool
  | [], n => ([n], true)
  | m :: ms, n =>
    if m.id = n.id then
      ({ m with label := n.label, properties := mergeProps m.properties n.properties } :: ms, false)
    else
      let (ms', created) := upsertNode ms n
      (m :: ms', created)

/-- Modelled from the spec: MERGE every entity of the bundle, counting
creations and updates. -/
def upsertNodes (ns : List GraphNode) (bundle : List GraphNode) :
    List GraphNode × Nat × Nat :=
  bundle.foldl
    (fun acc n =>
      let (cur, created, updated) := acc
      let (cur', isNew) := upsertNode cur n
      (cur', created + (if isNew then 1 else 0), updated + (if isNew then 0 else 1)))
    (ns, 0, 0)

/-- Modelled from the spec, Case A: update the first live edge row whose
content matches the proposed edge -- set last_verified = now, increment
verification_count, refresh source_url; everything else is untouched. -/
def verifyFirst (now : Nat) (url : String) : List TemporalEdge → TemporalEdge → List TemporalEdge
  | [], _ => []
  | a :: as_, e =>
    if sameContent a e && a.isLive then
      { a with last_verified := now,
               verification_count := a.verification_count + 1,
               source_url := url } :: as_
    else
      a :: verifyFirst now url as_ e

/-- Modelled from the spec, Case B first half: close every live edge row
between the proposed edge's endpoints and relation by setting valid_to =
now. -/
def closeKeyLive (now : Nat) (es : List TemporalEdge) (e : TemporalEdge) : List TemporalEdge :=
  es.map (fun a => if sameKey a e && a.isLive then { a with valid_to := some now } else a)

/-- Modelled from the spec: the fresh live edge row created in Cases B and C:
valid_from = now, valid_to = bottom, last_verified = now,
verification_count = 1, provenance and confidence from the proposal. -/
def newEdge (e : TemporalEdge) (now : Nat) (url : String) : TemporalEdge :=
  { source := e.source, target := e.target, relation := e.relation,
    properties := e.properties, valid_from := now, valid_to := none,
    last_verified := now, verification_count := 1, source_url := url,
    confidence := e.confidence }

/-- Is there a live edge row with the same content as e? (spec Case A guard:
"same H exists live") -/
def hasLiveContent (es : List TemporalEdge) (e : TemporalEdge) : Bool :=
  es.any (fun a => sameContent a e && a.isLive)

/-- Number of live edge rows between the same endpoints and relation. -/
def countLiveKey (es : List TemporalEdge) (e : TemporalEdge) : Nat :=
  (es.filter (fun a => sameKey a e && a.isLive)).length

/-- Modelled from the spec: apply one proposed edge (upsert_data's inner loop,
section 4.1).  Case A: a live row with the same content exists -- verify it.
Case B: live rows exist between the endpoints but none matches -- close them
and create a fresh live row.  Case C: no live row between the endpoints --
create a fresh live row. -/
def applyEdge (now : Nat) (url : String) (acc : List TemporalEdge × UpsertStats)
    (e : TemporalEdge) : List TemporalEdge × UpsertStats :=
  let (es, st) := acc
  if hasLiveContent es e then
    (verifyFirst now url es e, { st with edges_verified := st.edges_verified + 1 })
  else if countLiveKey es e ≠ 0 then
    (closeKeyLive now es e ++ [newEdge e now url],
     { st with edges_invalidated := st.edges_invalidated + countLiveKey es e,
               edges_created := st.edges_created + 1 })
  else
    (es ++ [newEdge e now url], { st with edges_created := st.edges_created + 1 })

/-- Modelled from the spec: GraphManager.upsert_data(bundle, source_url) at
server clock now -- MERGE the bundle's entities, then apply each proposed edge
in arrival order; returns the stats record and the new store state. -/
def upsert_data (σ : GraphState) (data : GraphData) (source_url : String) (now : Nat) :
    UpsertStats × GraphState :=
  let nres := upsertNodes σ.nodes data.nodes
  let eres := data.edges.foldl (applyEdge now source_url)
    (σ.edges, { nodes_created := nres.2.1, nodes_updated := nres.2.2 })
  (eres.2, { σ with nodes := nres.1, edges := eres.1 })

/-- Modelled from the spec: the links of get_graph_snapshot(t) -- all edge rows
with valid_from ≤ t and (valid_to = bottom or valid_to > t). -/
def snapshotLinks (σ : GraphState) (t : Nat) : List TemporalEdge :=
  σ.edges.filter (fun e => e.valid_from ≤ t &&
    (e.valid_to = none || (e.valid_to.getD 0) > t))

/-- Seconds in a day, for the staleness window. -/
def secondsPerDay : Nat := 86400

/-- Modelled from the spec: GraphManager.find_stale_nodes(days_threshold) at
server clock now -- the distinct source_url values that have at least one live
edge and all of whose live edges have last_verified before now minus the
window (spec 4.1: a URL with any fresh live edge is not stale).  The
comparison last_verified < now - days is written additively
(last_verified + days·86400 < now) to avoid truncated subtraction on Nat. -/
def find_stale_nodes (σ : GraphState) (days_threshold : Nat) (now : Nat) : List String :=
  (((σ.edges.filter (fun e => e.isLive)).map (fun e => e.source_url)).dedup).filter
    (fun u => (σ.edges.filter (fun e => e.isLive && e.source_url = u)).all
      (fun e => e.last_verified + days_threshold * secondsPerDay < now))

/-- Modelled from the spec: GraphManager.mark_edges_verified(source_url) at
server clock now -- set last_verified = now and increment verification_count
on every live edge with this source_url; returns the number touched and the
new state. -/
def mark_edges_verified (σ : GraphState) (url : String) (now : Nat) : Nat × GraphState :=
  ((σ.edges.filter (fun e => e.isLive && e.source_url = url)).length,
   { σ with edges := σ.edges.map (fun e =>
      if e.isLive && e.source_url = url then
        { e with last_verified := now, verification_count := e.verification_count + 1 }
      else e) })

/-- Modelled from the spec: GraphManager.get_document_state(source_url) -- the
most recent content hash observed for the URL, or bottom. -/
def get_document_state (σ : GraphState) (url : String) : Option String :=
  (σ.docs.find? (fun kv => kv.1 = url)).map (fun kv => kv.2.content_hash)

/-- Modelled from the spec: GraphManager.update_document_state(source_url,
content_hash) at server clock now -- insert or overwrite the document state
row for the URL. -/
def update_document_state (σ : GraphState) (url : String) (h : String) (now : Nat) : GraphState :=
  { σ with docs := (url, ⟨h, now⟩) ::
      σ.docs.filter (fun kv => !(kv.1 = url)) }

/-! ## Orchestrator (spec section 4.4.1)

sentinel_core/orchestrator.py is absent from src/; Sentinel.process_url is
modelled from the spec's state machine and from the call/return shapes pinned
by tests/test_healing.py.  The scrape outcome is passed in as a value (none
models a scrape failure); the extractor as a function argument, so that
"the extractor is never invoked" can be stated as independence from it. -/

/-- A scraped document: normalized content and its content hash. -/
structure ScrapedDoc where
  content : String
  content_hash : String
deriving DecidableEq, Repr

/-- The plain record process_url returns (status plus the fields the
terminal states carry; absent fields are none/0). -/
structure ProcessResult where
  status : String
  url : String
  reason : String := ""
  edges_updated : Nat := 0
  stats : Option UpsertStats := none
deriving DecidableEq, Repr

/-- Modelled from the spec: Sentinel.process_url(url) at server clock now.
FETCH is represented by the scr argument (none: scrape error).  COMPARE reads
the stored document hash; on equality the VERIFY branch marks the URL's live
edges verified and refreshes the document state; otherwise EXTRACT runs the
extractor and either records no_facts (empty bundle) or UPSERTs the bundle,
always refreshing the document state. -/
def process_url (σ : GraphState) (url : String) (scr : Option ScrapedDoc)
    (extract : String → GraphData) (now : Nat) : ProcessResult × GraphState :=
  match scr with
  | none => ({ status := "scrape_failed", url := url, reason := "scrape_error" }, σ)
  | some doc =>
    if get_document_state σ url = some doc.content_hash then
      let (n, σ1) := mark_edges_verified σ url now
      let σ2 := update_document_state σ1 url doc.content_hash now
      ({ status := "unchanged_verified", url := url, reason := "content_unchanged",
         edges_updated := n }, σ2)
    else
      let bundle := extract doc.content
      if bundle.nodes.isEmpty && bundle.edges.isEmpty then
        ({ status := "no_facts", url := url, reason := "empty_extraction" },
         update_document_state σ url doc.content_hash now)
      else
        let (st, σ1) := upsert_data σ bundle url now
        ({ status := "success", url := url, stats := some st },
         update_document_state σ1 url doc.content_hash now)

/-! ## Edge content hash (spec section 3)

sentinel_core/models.py is absent from src/; TemporalEdge.compute_hash is
modelled from the spec: H = SHA256(source, relation, target,
canonical_json(properties)), a 64-character lowercase hex digest.  SHA-256 is
implemented here in full over Nat arithmetic (words are Nats reduced mod
2^32); the round and initialisation constants are derived, as in the FIPS 180-4
definition, from the fractional parts of the cube and square roots of the
first primes, via integer root extraction. -/

/-- 2^32, the word modulus. -/
def pow32 : Nat := 4294967296

/-- Fuel-driven binary search for the largest x with x^k ≤ n, maintaining
lo^k ≤ n < hi^k. -/
def rootSearch (k : Nat) : Nat → Nat → Nat → Nat → Nat
  | 0, lo, _, _ => lo
  | fuel + 1, lo, hi, n =>
    if hi ≤ lo + 1 then lo
    else
      let mid := (lo + hi) / 2
      if mid ^ k ≤ n then rootSearch k fuel mid hi n else rootSearch k fuel lo mid n

/-- Integer square root (largest x with x^2 ≤ n). -/
def intSqrt (n : Nat) : Nat := rootSearch 2 128 0 (n + 1) n

/-- Integer cube root (largest x with x^3 ≤ n). -/
def intCbrt (n : Nat) : Nat := rootSearch 3 128 0 (n + 1) n

/-- The first 64 primes, sources of the SHA-256 constants. -/
def primes64 : List Nat :=
  [2, 3, 5, 7, 11, 13, 17, 19, 23, 29, 31, 37, 41, 43, 47, 53,
   59, 61, 67, 71, 73, 79, 83, 89, 97, 101, 103, 107, 109, 113, 127, 131,
   137, 139, 149, 151, 157, 163, 167, 173, 179, 181, 191, 193, 197, 199, 211, 223,
   227, 229, 233, 239, 241, 251, 257, 263, 269, 271, 277, 281, 283, 293, 307, 311]

/-- SHA-256 round constants: first 32 bits of the fractional parts of the cube
roots of the first 64 primes. -/
def shaK : List Nat := primes64.map (fun p => intCbrt (p * 2 ^ 96) % pow32)

/-- SHA-256 initial hash value: first 32 bits of the fractional parts of the
square roots of the first 8 primes. -/
def shaH0 : List Nat := (primes64.take 8).map (fun p => intSqrt (p * 2 ^ 64) % pow32)

/-- Right rotation of a 32-bit word. -/
def rotr (x n : Nat) : Nat := ((x >>> n) ||| (x <<< (32 - n))) % pow32

/-- SHA-256 big sigma 0. -/
def bsig0 (x : Nat) : Nat := rotr x 2 ^^^ rotr x 13 ^^^ rotr x 22

/-- SHA-256 big sigma 1. -/
def bsig1 (x : Nat) : Nat := rotr x 6 ^^^ rotr x 11 ^^^ rotr x 25

/-- SHA-256 small sigma 0. -/
def ssig0 (x : Nat) : Nat := rotr x 7 ^^^ rotr x 18 ^^^ (x >>> 3)

/-- SHA-256 small sigma 1. -/
def ssig1 (x : Nat) : Nat := rotr x 17 ^^^ rotr x 19 ^^^ (x >>> 10)

/-- SHA-256 choose function (the complement of x is taken within 32 bits). -/
def chFn (x y z : Nat) : Nat := (x &&& y) ^^^ ((x ^^^ 4294967295) &&& z)

/-- SHA-256 majority function. -/
def majFn (x y z : Nat) : Nat := (x &&& y) ^^^ (x &&& z) ^^^ (y &&& z)

/-- The eight working variables of the compression function. -/
structure Hs where
  a : Nat
  b : Nat
  c : Nat
  d : Nat
  e : Nat
  f : Nat
  g : Nat
  h : Nat
deriving DecidableEq, Repr

/-- One round of the SHA-256 compression function. -/
def shaStep (s : Hs) (kw : Nat × Nat) : Hs :=
  let t1 := (s.h + bsig1 s.e + chFn s.e s.f s.g + kw.1 + kw.2) % pow32
  let t2 := (bsig0 s.a + majFn s.a s.b s.c) % pow32
  { a := (t1 + t2) % pow32, b := s.a, c := s.b, d := s.c,
    e := (s.d + t1) % pow32, f := s.e, g := s.f, h := s.g }

/-- Extend the 16 block words to the 64-word message schedule.  The
accumulator holds the schedule so far in reverse order, so positions 1, 6, 14
and 15 are the words w[i-2], w[i-7], w[i-15] and w[i-16]. -/
def shaSched : Nat → List Nat → List Nat
  | 0, acc => acc.reverse
  | fuel + 1, acc =>
    let w := (ssig1 (acc.getD 1 0) + acc.getD 6 0 + ssig0 (acc.getD 14 0) +
              acc.getD 15 0) % pow32
    shaSched fuel (w :: acc)

/-- Group a byte list into big-endian 32-bit words (fuel-driven). -/
def bytesToWords : Nat → List Nat → List Nat
  | 0, _ => []
  | fuel + 1, b0 :: b1 :: b2 :: b3 :: rest =>
    (((b0 * 256 + b1) * 256 + b2) * 256 + b3) :: bytesToWords fuel rest
  | _, _ => []

/-- Compress one 64-byte block into the chaining state. -/
def shaCompress (s : Hs) (block : List Nat) : Hs :=
  let ws := shaSched 48 (bytesToWords 16 block).reverse
  let t := (shaK.zip ws).foldl shaStep s
  { a := (s.a + t.a) % pow32, b := (s.b + t.b) % pow32,
    c := (s.c + t.c) % pow32, d := (s.d + t.d) % pow32,
    e := (s.e + t.e) % pow32, f := (s.f + t.f) % pow32,
    g := (s.g + t.g) % pow32, h := (s.h + t.h) % pow32 }

/-- Split a byte list into 64-byte blocks (fuel-driven). -/
def toBlocks : Nat → List Nat → List (List Nat)
  | 0, _ => []
  | _, [] => []
  | fuel + 1, l => l.take 64 :: toBlocks fuel (l.drop 64)

/-- Big-endian byte expansion of n to k bytes. -/
def beBytes (k n : Nat) : List Nat :=
  (List.range k).map (fun i => (n >>> (8 * (k - 1 - i))) % 256)

/-- SHA-256 padding: a 0x80 byte, zeros to 56 mod 64, and the bit length as
eight big-endian bytes. -/
def shaPad (msg : List Nat) : List Nat :=
  msg ++ 128 :: List.replicate ((64 - (msg.length + 9) % 64) % 64) 0 ++
    beBytes 8 (msg.length * 8)

/-- The SHA-256 state after absorbing a byte message. -/
def sha256state (msg : List Nat) : Hs :=
  let padded := shaPad msg
  (toBlocks (padded.length + 1) padded).foldl shaCompress
    { a := shaH0.getD 0 0, b := shaH0.getD 1 0, c := shaH0.getD 2 0,
      d := shaH0.getD 3 0, e := shaH0.getD 4 0, f := shaH0.getD 5 0,
      g := shaH0.getD 6 0, h := shaH0.getD 7 0 }

/-- The SHA-256 digest of a byte message as a natural number below 2^256. -/
def sha256nat (msg : List Nat) : Nat :=
  let s := sha256state msg
  ((((((s.a * pow32 + s.b) * pow32 + s.c) * pow32 + s.d) * pow32 + s.e) *
      pow32 + s.f) * pow32 + s.g) * pow32 + s.h

/-- The UTF-8 bytes of one unicode scalar value. -/
def utf8EncodeNat (n : Nat) : List Nat :=
  if n < 128 then [n]
  else if n < 2048 then [192 + n / 64, 128 + n % 64]
  else if n < 65536 then [224 + n / 4096, 128 + n / 64 % 64, 128 + n % 64]
  else [240 + n / 262144, 128 + n / 4096 % 64, 128 + n / 64 % 64, 128 + n % 64]

/-- The UTF-8 bytes of a string. -/
def utf8Bytes (s : String) : List Nat :=
  (s.data.map (fun c => utf8EncodeNat c.toNat)).flatten

/-- One lowercase hex digit. -/
def hexDigit (n : Nat) : Char :=
  if n < 10 then Char.ofNat (48 + n) else Char.ofNat (87 + n)

/-- The 64-character lowercase hex rendering of a digest below 2^256. -/
def hexOfNat256 (n : Nat) : String :=
  String.mk ((List.range 64).map (fun i => hexDigit (n >>> (4 * (63 - i)) % 16)))

/-- The SHA-256 hex digest of a string, as Python's
hashlib.sha256(s.encode()).hexdigest(). -/
def sha256hex (s : String) : String := hexOfNat256 (sha256nat (utf8Bytes s))

/-- Lexicographic (code-point) comparison of strings, for canonical key
order. -/
def charListLe : List Char → List Char → Bool
  | [], _ => true
  | _ :: _, [] => false
  | c :: cs, d :: ds =>
    if c.toNat < d.toNat then true
    else if d.toNat < c.toNat then false
    else charListLe cs ds

/-- String comparison used to sort JSON keys. -/
def strLe (a b : String) : Bool := charListLe a.data b.data

/-- Insert one key-value pair into a key-sorted list. -/
def insertByKey (kv : String × String) : List (String × String) → List (String × String)
  | [] => [kv]
  | p :: ps => if strLe kv.1 p.1 then kv :: p :: ps else p :: insertByKey kv ps

/-- Sort a property map by key (insertion sort). -/
def sortByKey (l : List (String × String)) : List (String × String) :=
  l.foldr insertByKey []

/-- JSON string escaping (backslash and double quote; the repository's
property values are plain scalars). -/
def jsonEscape (s : String) : String :=
  String.mk ((s.data.map (fun c =>
    if c = Char.ofNat 34 || c = Char.ofNat 92 then [Char.ofNat 92, c] else [c])).flatten)

/-- Modelled from the spec: canonical_json of a property map, as Python's
json.dumps(props, sort_keys=True) -- keys sorted, rendered with the default
", " and ": " separators. -/
def canonicalJson (props : List (String × String)) : String :=
  "\x7b" ++ String.intercalate ", "
    ((sortByKey props).map (fun kv =>
      "\"" ++ jsonEscape kv.1 ++ "\": \"" ++ jsonEscape kv.2 ++ "\"")) ++ "\x7d"

/-- Modelled from the spec: TemporalEdge.compute_hash (models.py is absent
from src/) -- the SHA-256 hex digest of source, relation, target and the
canonical JSON of the property map; valid_from, valid_to, last_verified,
verification_count, source_url and confidence do not enter the hash. -/
def TemporalEdge.compute_hash (e : TemporalEdge) : String :=
  sha256hex (e.source ++ e.relation ++ e.target ++ canonicalJson e.properties)

/-! ## Query engine (sentinel_service/query_engine.py)

Embedded from the source.  Python strings are modelled over their char lists
(the repository's questions and names are ASCII); the Neo4j session is a
function argument mapping a Cypher query to either an exception message or a
record list, which models session.run inside the try block. -/

/-- Does the pattern occur at the head of the char list? -/
def startsWithChars : List Char → List Char → Bool
  | [], _ => true
  | _ :: _, [] => false
  | p :: ps, c :: cs => p = c && startsWithChars ps cs

/-- Substring containment on char lists (Python's needle in haystack). -/
def containsChars (pat : List Char) : List Char → Bool
  | [] => decide (pat = [])
  | c :: cs => startsWithChars pat (c :: cs) || containsChars pat cs

/-- Python needle in haystack on strings. -/
def pyIn (needle hay : String) : Bool := containsChars needle.data hay.data

/-- Python str.replace on char lists, fuel-driven over the haystack. -/
def replaceChars (pat repl : List Char) : Nat → List Char → List Char
  | 0, l => l
  | fuel + 1, l =>
    if startsWithChars pat l && !(pat = []) then
      repl ++ replaceChars pat repl fuel (l.drop pat.length)
    else
      match l with
      | [] => []
      | c :: cs => c :: replaceChars pat repl fuel cs

/-- Python str.replace(pat, repl) for a non-empty pattern. -/
def pyReplace (s pat repl : String) : String :=
  ⟨replaceChars pat.data repl.data s.data.length s.data⟩

/-- Python str.split() -- split on whitespace runs, no empty parts. -/
def splitWsAux : List Char → List Char → List String
  | [], cur => if cur = [] then [] else [⟨cur.reverse⟩]
  | c :: cs, cur =>
    if c.isWhitespace then
      if cur = [] then splitWsAux cs [] else ⟨cur.reverse⟩ :: splitWsAux cs []
    else splitWsAux cs (c :: cur)

/-- Python question.split(). -/
def pySplit (s : String) : List String := splitWsAux s.data []

/-- ASCII lowercasing of one character (Python str.lower on the repository
inputs). -/
def charLower (c : Char) : Char :=
  if 65 ≤ c.toNat && c.toNat ≤ 90 then Char.ofNat (c.toNat + 32) else c

/-- ASCII lowercasing of a string. -/
def pyLower (s : String) : String := ⟨s.data.map charLower⟩

/-- A single-quote character, kept out of string literals. -/
def squote : String := ⟨[Char.ofNat 39]⟩

/-- The fixed question-word stopword set of
QueryEngine.extract_entities_from_question (source lines 43-46). -/
def question_words : List String :=
  ["what", "who", "when", "where", "why", "how", "is", "are", "was", "were",
   "the", "a", "an", "in", "on", "at", "to", "for", "of", "with", "about",
   "does", "do", "did", "can", "could", "would", "should", "founded", "created",
   "made", "built", "developed", "invented"]

/-- The cleaning step re.sub applied to each word: keep word characters and
whitespace, drop the rest (ASCII model of the regex character class). -/
def cleanWord (w : String) : String :=
  ⟨w.data.filter (fun c => c.isAlphanum || c = '_' || c.isWhitespace)⟩

/-- Python str.isupper(): at least one cased character and every cased
character uppercase (ASCII model: cased = letter). -/
def pyIsUpper (s : String) : Bool :=
  s.data.any Char.isAlpha && s.data.all (fun c => !c.isAlpha || c.isUpper)

/-- Does a cleaned word pass the capitalization test of the source
(clean_word[0].isupper() or clean_word.isupper())? -/
def capTest (cw : String) : Bool :=
  (cw.data.headD ' ').isUpper || pyIsUpper cw

/-- The word-loop of extract_entities_from_question: current_entity is the
run of kept words being built, acc the finished entities. -/
def extractLoop : List String → List String → List String → List String
  | [], current, acc =>
    if current = [] then acc else acc ++ [" ".intercalate current]
  | w :: ws, current, acc =>
    let cw := cleanWord w
    if cw = "" then extractLoop ws current acc
    else if capTest cw then
      if question_words.contains (pyLower cw) then extractLoop ws current acc
      else extractLoop ws (current ++ [cw]) acc
    else if current = [] then extractLoop ws [] acc
    else extractLoop ws [] (acc ++ [" ".intercalate current])

/-- QueryEngine._extract_entities_from_question (source lines 37-72):
candidate entity names by capitalization heuristics. -/
def extract_entities_from_question (question : String) : List String :=
  extractLoop (pySplit question) [] []

/-- Python re.escape (3.7+): backslash-escape regex metacharacters and
whitespace, leave other characters alone. -/
def reEscape (s : String) : String :=
  ⟨(s.data.map (fun c =>
    if ("()[]?*+-|^$.&~# \t\n\r".data ++ [Char.ofNat 92, Char.ofNat 11,
        Char.ofNat 12, Char.ofNat 123, Char.ofNat 125]).contains c
    then [Char.ofNat 92, c] else [c])).flatten⟩

/-- The alternation pattern built from the extracted entities:
(?i).*e1.* | ... for each entity, regex-escaped. -/
def entityPattern (entities : List String) : String :=
  String.intercalate "|" (entities.map (fun e => "(?i).*" ++ reEscape e ++ ".*"))

/-- The founder-by-entity Cypher query (source lines 96-107). -/
def founderEntityQuery (pat : String) : String :=
  "\n                MATCH path = (target:Entity)-[r]->(person:Entity)\n" ++
  "                WHERE r.valid_to IS NULL\n" ++
  "                  AND (type(r) =~ " ++ squote ++ ".*FOUND.*" ++ squote ++
  " OR type(r) =~ " ++ squote ++ ".*CREAT.*" ++ squote ++ " OR type(r) =~ " ++ squote ++
  ".*START.*" ++ squote ++ ")\n" ++
  "                  AND (target.name =~ " ++ squote ++ pat ++ squote ++ ")\n" ++
  "                RETURN person.name AS person,\n" ++
  "                       type(r) AS relation,\n" ++
  "                       target.name AS company,\n" ++
  "                       r.confidence AS confidence,\n" ++
  "                       [node in nodes(path) | node.name] AS path_nodes\n" ++
  "                LIMIT 1\n                "

/-- The general information Cypher query about an entity (source lines
110-120). -/
def generalEntityQuery (pat : String) : String :=
  "\n                MATCH path = (source:Entity)-[r]->(target:Entity)\n" ++
  "                WHERE r.valid_to IS NULL\n" ++
  "                  AND (source.name =~ " ++ squote ++ pat ++ squote ++
  " OR target.name =~ " ++ squote ++ pat ++ squote ++ ")\n" ++
  "                RETURN source.name AS source,\n" ++
  "                       type(r) AS relation,\n" ++
  "                       target.name AS target,\n" ++
  "                       r.confidence AS confidence,\n" ++
  "                       [node in nodes(path) | node.name] AS path_nodes\n" ++
  "                LIMIT 5\n                "

/-- The price-pattern Cypher query (source lines 124-134). -/
def priceQuery : String :=
  "\n            MATCH path = (product:Entity)-[r]->(price:Entity)\n" ++
  "            WHERE r.valid_to IS NULL\n" ++
  "              AND (type(r) =~ " ++ squote ++ ".*COST.*" ++ squote ++
  " OR type(r) =~ " ++ squote ++ ".*PRICE.*" ++ squote ++ ")\n" ++
  "            RETURN product.name AS product,\n" ++
  "                   price.name AS price,\n" ++
  "                   r.confidence AS confidence,\n" ++
  "                   r.source_url AS source,\n" ++
  "                   [node in nodes(path) | node.name] AS path_nodes\n" ++
  "            LIMIT 1\n            "

/-- The leadership-pattern Cypher query (source lines 136-146). -/
def ceoQuery : String :=
  "\n            MATCH path = (person:Entity)-[r]->(company:Entity)\n" ++
  "            WHERE r.valid_to IS NULL\n" ++
  "              AND (type(r) =~ " ++ squote ++ ".*CEO.*" ++ squote ++
  " OR type(r) =~ " ++ squote ++ ".*FOUND.*" ++ squote ++ ")\n" ++
  "            RETURN person.name AS person,\n" ++
  "                   type(r) AS relation,\n" ++
  "                   company.name AS company,\n" ++
  "                   r.confidence AS confidence,\n" ++
  "                   [node in nodes(path) | node.name] AS path_nodes\n" ++
  "            LIMIT 1\n            "

/-- The change-detection Cypher query (source lines 148-159). -/
def changedQuery : String :=
  "\n            MATCH path = (source:Entity)-[r]->(target:Entity)\n" ++
  "            WHERE r.valid_to IS NOT NULL\n" ++
  "            RETURN source.name AS source,\n" ++
  "                   type(r) AS relation,\n" ++
  "                   target.name AS target,\n" ++
  "                   r.valid_from AS from_date,\n" ++
  "                   r.valid_to AS to_date,\n" ++
  "                   [node in nodes(path) | node.name] AS path_nodes\n" ++
  "            ORDER BY r.valid_to DESC\n" ++
  "            LIMIT 5\n            "

/-- The default random-relationships Cypher query (source lines 162-172). -/
def defaultQuery : String :=
  "\n            MATCH path = (source:Entity)-[r]->(target:Entity)\n" ++
  "            WHERE r.valid_to IS NULL\n" ++
  "            RETURN source.name AS source,\n" ++
  "                   type(r) AS relation,\n" ++
  "                   target.name AS target,\n" ++
  "                   r.confidence AS confidence,\n" ++
  "                   [node in nodes(path) | node.name] AS path_nodes\n" ++
  "            ORDER BY rand()\n" ++
  "            LIMIT 5\n            "

/-- QueryEngine.generate_cypher_from_question (source lines 74-172): route on
extracted entities and keyword presence, falling through to the
keyword-only patterns when the entity branches do not fire. -/
def generate_cypher_from_question (question : String) : String :=
  let ql := pyLower question
  let entities := extract_entities_from_question question
  if !entities.isEmpty && (pyIn "who" ql &&
      (pyIn "founded" ql || pyIn "created" ql || pyIn "started" ql)) then
    founderEntityQuery (entityPattern entities)
  else if !entities.isEmpty &&
      (pyIn "what" ql || pyIn "tell" ql || pyIn "about" ql) then
    generalEntityQuery (entityPattern entities)
  else if pyIn "how much" ql || pyIn "cost" ql || pyIn "price" ql then
    priceQuery
  else if pyIn "who" ql && (pyIn "ceo" ql || pyIn "founder" ql) then
    ceoQuery
  else if pyIn "what" ql && pyIn "changed" ql then
    changedQuery
  else
    defaultQuery

/-- A value in a Neo4j result record: a string, a list of node names, or
null. -/
inductive QVal where
  | s (v : String)
  | l (v : List String)
  | null
deriving DecidableEq, Repr

/-- A Neo4j result record, as the dict the source builds from it. -/
abbrev QRec := List (String × QVal)

/-- Python str() of a list of strings, for values interpolated into
f-strings. -/
def pyListStr (vs : List String) : String :=
  "[" ++ String.intercalate ", " (vs.map (fun v => squote ++ v ++ squote)) ++ "]"

/-- record.get(key, default) where a string is expected: missing keys give the
default, other values their Python string form. -/
def qgetStr (r : QRec) (k : String) (dflt : String) : String :=
  match (r.find? (fun kv => kv.1 = k)).map (fun kv => kv.2) with
  | some (QVal.s v) => v
  | some (QVal.l vs) => pyListStr vs
  | some QVal.null => "None"
  | none => dflt

/-- record.get(key, []) where a list is expected. -/
def qgetList (r : QRec) (k : String) : List String :=
  match (r.find? (fun kv => kv.1 = k)).map (fun kv => kv.2) with
  | some (QVal.l vs) => vs
  | _ => []

/-- QueryEngine._format_answer (source lines 242-296): template-format the
first records into a one-line answer by question keywords. -/
def format_answer (question : String) (records : List QRec) : String :=
  match records with
  | [] => "I don" ++ squote ++ "t have enough information to answer that question."
  | first :: _ =>
    let ql := pyLower question
    if pyIn "how much" ql || pyIn "cost" ql || pyIn "price" ql then
      qgetStr first "product" "Unknown" ++ " costs " ++ qgetStr first "price" "Unknown" ++ "."
    else if pyIn "who" ql &&
        (pyIn "ceo" ql || pyIn "founder" ql || pyIn "founded" ql) then
      let person := qgetStr first "person" "Unknown"
      let relation := qgetStr first "relation" "is associated with"
      let company := qgetStr first "company" "Unknown"
      let relationClean := pyReplace (pyLower relation) "_" " "
      let relationClean :=
        if pyIn "by" relationClean then pyReplace relationClean " by" "" else relationClean
      person ++ " " ++ relationClean ++ " " ++ company ++ "."
    else if pyIn "what" ql && pyIn "changed" ql then
      let changes := (records.take 3).map (fun r =>
        qgetStr r "source" "Unknown" ++ " " ++
        pyReplace (pyLower (qgetStr r "relation" "relates to")) "_" " " ++ " " ++
        qgetStr r "target" "Unknown" ++ " (changed " ++ qgetStr r "to_date" "recently" ++ ")")
      "Recent changes:\n" ++ String.intercalate "\n" (changes.map (fun c => "- " ++ c))
    else
      qgetStr first "source" "Unknown" ++ " " ++
      pyReplace (pyLower (qgetStr first "relation" "relates to")) "_" " " ++ " " ++
      qgetStr first "target" "Unknown" ++ "."

/-- The dict execute_query_with_path returns; cypher_query = none models the
absence of the key. -/
structure QueryResult where
  answer : String
  path : List String
  results : List QRec
  cypher_query : Option String := none
deriving DecidableEq, Repr

/-- QueryEngine.execute_query_with_path (source lines 174-240).  The session
is the run argument: an exception message or a record list.  The timestamp
argument is accepted, as in the source, where it is bound but never read --
the generated Cypher depends only on the question. -/
def execute_query_with_path (run : String → Except String (List QRec))
    (question : String) (timestamp : Option String) : QueryResult :=
  let _ := timestamp
  let cypher_query := generate_cypher_from_question question
  match run cypher_query with
  | Except.error e =>
    { answer := "Error: " ++ e, path := [], results := [] }
  | Except.ok records =>
    match records with
    | [] => { answer := "No results found.", path := [], results := [] }
    | first :: _ =>
      { answer := format_answer question records,
        path := qgetList first "path_nodes",
        results := records,
        cypher_query := some cypher_query }

/-! ## HTTP facade (sentinel_platform/api/main.py)

Embedded from the source: the ingest endpoint with its module-level
sentinel_agent and system_status globals.  The agent is an optional function
from a URL to either an exception message or a process result, modelling
await sentinel_agent.process_url(url) inside the try block. -/

/-- The global system_status record (source lines 70-74). -/
structure SystemStatus where
  state : String
  message : String
  last_update : Nat
deriving DecidableEq, Repr

/-- update_status (source lines 85-91). -/
def update_status (st : SystemStatus) (state message : String) (now : Nat) : SystemStatus :=
  { st with state := state, message := message, last_update := now }

/-- An HTTPException raised by a handler. -/
structure HTTPError where
  status_code : Nat
  detail : String
deriving DecidableEq, Repr

/-- POST /api/ingest (sentinel_platform/api/main.py lines 263-296): reject
with 503 when the Sentinel agent is not initialized, otherwise set the status
to Processing, run the agent on the URL, and report; agent exceptions become
an Error status and HTTP 500. -/
def api_ingest_url (sentinel_agent : Option (String → Except String ProcessResult))
    (st : SystemStatus) (url : String) (now : Nat) :
    Except HTTPError ProcessResult × SystemStatus :=
  match sentinel_agent with
  | none => (Except.error ⟨503, "Sentinel agent not initialized"⟩, st)
  | some agent =>
    let st1 := update_status st "Processing" ("Processing " ++ url ++ "...") now
    match agent url with
    | Except.error e =>
      (Except.error ⟨500, e⟩, update_status st1 "Error" ("Failed: " ++ e) now)
    | Except.ok result =>
      let msg :=
        if result.status = "success" then
          "Successfully processed " ++ url ++ ". Extracted " ++
            toString ((result.stats.map (fun s => s.nodes_created)).getD 0) ++ " nodes."
        else if result.status = "unchanged_verified" then
          "Content unchanged for " ++ url ++ ". Verified existing data."
        else
          "Processed " ++ url ++ " with status: " ++ result.status
      (Except.ok result, update_status st1 "Idle" msg now)

/-! ## Auxiliary definitions for the statements -/

/-- The fields of an edge row other than its verification bookkeeping
(last_verified, verification_count, source_url): upsert Case A may change
only the latter three. -/
def edgeCore (e : TemporalEdge) :
    String × String × String × List (String × String) × Nat × Option Nat × Rat :=
  (e.source, e.target, e.relation, e.properties, e.valid_from, e.valid_to, e.confidence)

/-- The fields of an edge row other than last_verified and
verification_count: mark_edges_verified may change only those two. -/
def edgeCoreV (e : TemporalEdge) :
    String × String × String × List (String × String) × Nat × Option Nat × String × Rat :=
  (e.source, e.target, e.relation, e.properties, e.valid_from, e.valid_to,
   e.source_url, e.confidence)

/-- Total verification count over a list of edge rows. -/
def totalVerifications (es : List TemporalEdge) : Nat :=
  (es.map (fun e => e.verification_count)).sum

/-- Number of live edge rows between a given (source, relation, target). -/
def liveKeyCount (es : List TemporalEdge) (s r t : String) : Nat :=
  (es.filter (fun a => a.source = s && a.relation = r && a.target = t && a.isLive)).length

/-- A live edge row with the same content as e that carries the verification
mark of the upsert at now from url. -/
def verifiedMark (now : Nat) (url : String) (e a : TemporalEdge) : Prop :=
  sameContent a e = true ∧ a.isLive = true ∧ a.last_verified = now ∧ a.source_url = url

/-- A word of the question that the entity extractor keeps: its cleaned form
is non-empty, passes the capitalization test, and is not a stopword. -/
def isQualifying (w : String) : Bool :=
  let cw := cleanWord w
  !(cw = "") && capTest cw && !(question_words.contains (pyLower cw))

/-- The frozen claim's reading of the extractor: maximal runs of consecutive
qualifying words of the question, each run joined by spaces (a run is broken
by any non-qualifying word). -/
def claimedLoop : List String → List String → List String → List String
  | [], cur, acc => if cur = [] then acc else acc ++ [" ".intercalate cur]
  | w :: ws, cur, acc =>
    if isQualifying w then claimedLoop ws (cur ++ [cleanWord w]) acc
    else if cur = [] then claimedLoop ws [] acc
    else claimedLoop ws [] (acc ++ [" ".intercalate cur])

/-- The frozen claim's reading of _extract_entities_from_question. -/
def entitiesClaimed (question : String) : List String :=
  claimedLoop (pySplit question) [] []

/-- Segment builder for the amended characterization, applied by foldr over
the raw words: a word cleaning to non-empty that fails the capitalization
test opens a segment boundary; a qualifying word joins the current (head)
segment; words cleaning to empty and capitalized stopwords vanish without
breaking the segment. -/
def segsStep (w : String) (acc : List (List String)) : List (List String) :=
  let cw := cleanWord w
  if cw = "" then acc
  else if capTest cw then
    if question_words.contains (pyLower cw) then acc
    else
      match acc with
      | [] => [[cw]]
      | seg :: rest => (cw :: seg) :: rest
  else [] :: acc

/-- The amended characterization of the extractor: split the question's words
at those whose cleaned form is non-empty and fails the capitalization test,
keep the cleaned qualifying words of each maximal segment in order, join each
non-empty group with spaces.  Capitalized stopwords and words cleaning to
empty do not break a phrase. -/
def entitiesAlt (question : String) : List String :=
  (((pySplit question).foldr segsStep []).filter (fun seg => !seg.isEmpty)).map
    (fun seg => " ".intercalate seg)

/-- An edge used to exhibit hash collisions: fixed endpoints, a single
property whose value is a run of n letters. -/
def probeEdge (n : Nat) : TemporalEdge :=
  { source := "s", target := "t", relation := "R",
    properties := [("k", String.mk (List.replicate n 'a'))], valid_from := 0 }

/-- Whether the eight compression-state words are reduced below 2^32. -/
def HsBounded (s : Hs) : Prop :=
  s.a < pow32 ∧ s.b < pow32 ∧ s.c < pow32 ∧ s.d < pow32 ∧
  s.e < pow32 ∧ s.f < pow32 ∧ s.g < pow32 ∧ s.h < pow32

/-- Merge an in-progress run of kept words into the head segment of a segment
list (used to relate the extractor loop to the segment characterization). -/
def consMerge (cur : List String) (segs : List (List String)) : List (List String) :=
  if cur = [] then segs
  else
    match segs with
    | [] => [cur]
    | s :: r => (cur ++ s) :: r

/-! ## Theorems -/

set_option maxRecDepth 8000

/-- C10: when the global Sentinel agent is uninitialized, POST /api/ingest
fails with HTTP 503 and detail "Sentinel agent not initialized" before any
processing, and the system status is left unchanged. -/
theorem ingest_requires_agent (st : SystemStatus) (url : String) (now : Nat) :
    api_ingest_url none st url now =
      (Except.error ⟨503, "Sentinel agent not initialized"⟩, st) := rfl

/-- C7: the timestamp argument of execute_query_with_path is accepted but
never used -- for every session, question and timestamp the result equals the
result without a timestamp, so the helper never evaluates against
snapshot_at(t), contradicting the claim (and the docstring) that a timestamp
triggers a time-travel query. -/
theorem query_timestamp_ignored (run : String → Except String (List QRec))
    (question : String) (ts : Option String) :
    execute_query_with_path run question ts =
      execute_query_with_path run question none := rfl

/-- C6 counterexample: on an empty result set the helper answers
"No results found.", not the claimed sentence. -/
theorem empty_results_answer_cex :
    (execute_query_with_path (fun _ => Except.ok []) "Who is the CEO of OpenAI?"
        none).answer = "No results found." ∧
    (execute_query_with_path (fun _ => Except.ok []) "Who is the CEO of OpenAI?"
        none).answer ≠
      "I don" ++ squote ++ "t have enough information to answer that." := by
  constructor
  · rfl
  · decide

/-- C6 (amended): for every question whose emitted pattern lookup matches no
records, execute_query_with_path returns the answer "No results found."
together with an empty path and empty results (and no cypher_query field) --
it never invents facts. -/
theorem empty_results_no_results_found (run : String → Except String (List QRec))
    (q : String) (ts : Option String)
    (h : run (generate_cypher_from_question q) = Except.ok []) :
    execute_query_with_path run q ts =
      { answer := "No results found.", path := [], results := [], cypher_query := none } := by
  simp only [execute_query_with_path]
  rw [h]

/-- Witness for the amended C6 theorem at a concrete session and question. -/
theorem empty_results_no_results_found_witness :
    execute_query_with_path (fun _ => Except.ok []) "What changed?" none =
      { answer := "No results found.", path := [], results := [], cypher_query := none } :=
  empty_results_no_results_found (fun _ => Except.ok []) "What changed?" none rfl

/-- C8 counterexample: a run that succeeds with an empty record list is not an
error, yet the returned record carries no cypher_query field. -/
theorem success_without_cypher_key_cex :
    (execute_query_with_path (fun _ => Except.ok []) "What changed recently?"
        none).answer = "No results found." ∧
    (execute_query_with_path (fun _ => Except.ok []) "What changed recently?"
        none).cypher_query = none := ⟨rfl, rfl⟩

/-- C8 (amended): execute_query_with_path never propagates an exception: when
generating or running the Cypher query raises, it returns a record whose
answer is "Error: " followed by the exception message with empty path and
results; on success with at least one record the returned record additionally
contains the emitted cypher_query (an empty result set returns the
no-results record without that field). -/
theorem execute_query_shape (run : String → Except String (List QRec))
    (q : String) (ts : Option String) :
    (∀ e, run (generate_cypher_from_question q) = Except.error e →
      execute_query_with_path run q ts =
        { answer := "Error: " ++ e, path := [], results := [], cypher_query := none }) ∧
    (∀ first rest, run (generate_cypher_from_question q) = Except.ok (first :: rest) →
      execute_query_with_path run q ts =
        { answer := format_answer q (first :: rest),
          path := qgetList first "path_nodes",
          results := first :: rest,
          cypher_query := some (generate_cypher_from_question q) }) := by
  constructor
  · intro e he
    simp only [execute_query_with_path]
    rw [he]
  · intro first rest hr
    simp only [execute_query_with_path]
    rw [hr]

/-- Witness for the amended C8 theorem: both branches applied at concrete
sessions and questions. -/
theorem execute_query_shape_witness :
    execute_query_with_path (fun _ => Except.error "boom") "What changed recently?" none =
      { answer := "Error: boom", path := [], results := [], cypher_query := none } ∧
    execute_query_with_path
        (fun _ => Except.ok [[("path_nodes", QVal.l ["a", "b"])]])
        "anything" none =
      { answer := format_answer "anything" [[("path_nodes", QVal.l ["a", "b"])]],
        path := ["a", "b"],
        results := [[("path_nodes", QVal.l ["a", "b"])]],
        cypher_query := some (generate_cypher_from_question "anything") } := by
  constructor
  · exact (execute_query_shape (fun _ => Except.error "boom") "What changed recently?"
      none).1 "boom" rfl
  · exact (execute_query_shape
      (fun _ => Except.ok [[("path_nodes", QVal.l ["a", "b"])]]) "anything" none).2
      [("path_nodes", QVal.l ["a", "b"])] [] rfl

/-- consMerge of an empty run is the identity. -/
theorem consMerge_nil (segs : List (List String)) : consMerge [] segs = segs := by
  simp [consMerge]

/-- The extractor word loop equals the segment view: finished entities, then
the segments of the remaining words with the in-progress run merged into the
first one, empty segments dropped, each segment space-joined. -/
theorem extractLoop_eq : ∀ (ws : List String) (cur acc : List String),
    extractLoop ws cur acc =
      acc ++ ((consMerge cur (ws.foldr segsStep [])).filter
        (fun seg => !seg.isEmpty)).map (fun seg => " ".intercalate seg) := by
  intro ws
  induction ws with
  | nil =>
    intro cur acc
    by_cases hcur : cur = []
    · simp [extractLoop, consMerge, hcur]
    · simp [extractLoop, consMerge, hcur]
  | cons w ws ih =>
    intro cur acc
    by_cases h1 : cleanWord w = ""
    · simp only [extractLoop, h1, if_pos rfl, List.foldr_cons, segsStep]
      simp [h1, ih]
    · by_cases h2 : capTest (cleanWord w) = true
      · by_cases h3 : pyLower (cleanWord w) ∈ question_words
        · simp only [extractLoop, List.foldr_cons, segsStep]
          simp [h1, h2, h3, ih]
        · simp only [extractLoop, List.foldr_cons, segsStep]
          simp only [ih]
          simp only [h1, h2, h3, if_neg h1, if_pos h2, List.elem_iff,
            decide_eq_true_eq, if_false, ite_true, ite_false]
          cases hP : ws.foldr segsStep [] with
          | nil =>
            by_cases hcur : cur = []
            · simp [hcur, consMerge, h1, h3]
            · simp [hcur, consMerge, h1, h3]
          | cons s r =>
            by_cases hcur : cur = []
            · simp [hcur, consMerge, h1, h3]
            · simp [hcur, consMerge, h1, h3]
      · simp only [extractLoop, List.foldr_cons, segsStep]
        by_cases hcur : cur = []
        · simp [h1, h2, hcur, ih, consMerge]
        · simp [h1, h2, hcur, ih, consMerge]

/-- Every word stored in a segment by the segment builder is non-empty. -/
theorem segs_words_ne_empty : ∀ (ws : List String) (seg : List String),
    seg ∈ ws.foldr segsStep [] → ∀ x ∈ seg, x ≠ "" := by
  intro ws
  induction ws with
  | nil => intro seg h; simp at h
  | cons w ws ih =>
    intro seg hseg x hx
    simp only [List.foldr_cons, segsStep] at hseg
    by_cases h1 : cleanWord w = ""
    · exact ih seg (by simpa [h1] using hseg) x hx
    · by_cases h2 : capTest (cleanWord w) = true
      · by_cases h3 : pyLower (cleanWord w) ∈ question_words
        · refine ih seg ?_ x hx
          simpa [h1, h2, h3, List.elem_iff] using hseg
        · simp only [if_neg h1, if_pos h2] at hseg
          rw [if_neg (by simpa [List.elem_iff] using h3)] at hseg
          cases hP : ws.foldr segsStep [] with
          | nil =>
            rw [hP] at hseg
            simp at hseg
            subst hseg
            simp at hx
            subst hx
            exact h1
          | cons s r =>
            rw [hP] at hseg
            simp at hseg
            rcases hseg with hseg | hseg
            · subst hseg
              simp at hx
              rcases hx with hx | hx
              · subst hx; exact h1
              · exact ih s (by rw [hP]; exact List.mem_cons_self s r) x hx
            · exact ih seg (by rw [hP]; exact List.mem_cons_of_mem s hseg) x hx
      · simp only [if_neg h1, if_neg h2] at hseg
        simp at hseg
        rcases hseg with hseg | hseg
        · subst hseg; simp at hx
        · exact ih seg hseg x hx

/-- The space-join of a non-empty list of strings with a non-empty head is
non-empty. -/
theorem intercalate_ne_empty (w : String) (rest : List String) (hw : w ≠ "") :
    " ".intercalate (w :: rest) ≠ "" := by
  have hgo : ∀ (as : List String) (acc : String),
      ∃ t, (String.intercalate.go acc " " as).data = acc.data ++ t := by
    intro as
    induction as with
    | nil => intro acc; exact ⟨[], by simp [String.intercalate.go]⟩
    | cons a as ih =>
      intro acc
      obtain ⟨t, ht⟩ := ih (acc ++ " " ++ a)
      refine ⟨" ".data ++ a.data ++ t, ?_⟩
      simp only [String.intercalate.go, ht]
      simp [String.data_append]
  intro hcontra
  obtain ⟨t, ht⟩ := hgo rest w
  have : (String.intercalate " " (w :: rest)).data = w.data ++ t := by
    simpa [String.intercalate] using ht
  rw [hcontra] at this
  have hwdata : w.data ≠ [] := by
    intro hd
    apply hw
    cases w with
    | mk d => cases hd; rfl
  simp at this
  exact hwdata this.1

/-- C9 (amended): every element returned by the entity extractor is a
non-empty phrase; the returned list equals the segment characterization:
split the question's words at those whose cleaned form is non-empty and fails
the capitalization test, join the cleaned qualifying (capitalized,
non-stopword) words of each maximal segment with spaces, and drop empty
groups -- so capitalized stopwords and punctuation-only tokens are skipped
without breaking a phrase, and a question with no qualifying word yields the
empty list. -/
theorem extract_entities_characterization (q : String) :
    extract_entities_from_question q = entitiesAlt q ∧
    ∀ e ∈ extract_entities_from_question q, e ≠ "" := by
  have hmain : extract_entities_from_question q = entitiesAlt q := by
    unfold extract_entities_from_question entitiesAlt
    rw [extractLoop_eq]
    rw [consMerge_nil]
    simp
  refine ⟨hmain, ?_⟩
  rw [hmain]
  intro e he
  unfold entitiesAlt at he
  simp only [List.mem_map, List.mem_filter] at he
  obtain ⟨seg, ⟨hmem, hne⟩, hjoin⟩ := he
  cases seg with
  | nil => simp at hne
  | cons w rest =>
    have hw : w ≠ "" :=
      segs_words_ne_empty (pySplit q) (w :: rest) hmem w (List.mem_cons_self w rest)
    rw [← hjoin]
    exact intercalate_ne_empty w rest hw

/-- C9 counterexample: in "Tesla The Edison" the qualifying words Tesla and
Edison are not consecutive (the capitalized stopword The lies between), yet
the extractor joins them into one phrase, so the extracted entities are not
the maximal runs of consecutive qualifying words the claim describes. -/
theorem extract_entities_not_runs_cex :
    extract_entities_from_question "Tesla The Edison" = ["Tesla Edison"] ∧
    entitiesClaimed "Tesla The Edison" = ["Tesla", "Edison"] ∧
    extract_entities_from_question "Tesla The Edison" ≠
      entitiesClaimed "Tesla The Edison" := by
  refine ⟨by decide, by decide, by decide⟩

/-- Witness for the C9 theorem at a concrete question. -/
theorem extract_entities_characterization_witness :
    extract_entities_from_question "Tesla The Edison" = entitiesAlt "Tesla The Edison" ∧
    "Tesla Edison" ≠ "" :=
  ⟨(extract_entities_characterization "Tesla The Edison").1,
   (extract_entities_characterization "Tesla The Edison").2 "Tesla Edison" (by decide)⟩

/-- C5: find_stale_nodes(days_threshold) returns exactly the distinct set of
source_url values that have a live edge and all of whose live edges have
last_verified earlier than now minus the threshold in days: membership holds
precisely when some live edge carries the URL and every live edge carrying it
is out of the window, and the returned list has no duplicates -- staleness is
per source_url, not per edge. -/
theorem find_stale_nodes_characterization (σ : GraphState) (d now : Nat) (u : String) :
    (u ∈ find_stale_nodes σ d now ↔
      ((∃ e ∈ σ.edges, e.isLive = true ∧ e.source_url = u) ∧
        ∀ e ∈ σ.edges, e.isLive = true → e.source_url = u →
          e.last_verified + d * secondsPerDay < now)) ∧
    (find_stale_nodes σ d now).Nodup := by
  constructor
  · unfold find_stale_nodes
    simp only [List.mem_filter, List.mem_dedup, List.mem_map, List.all_eq_true,
      List.mem_filter, Bool.and_eq_true, decide_eq_true_eq]
    constructor
    · rintro ⟨⟨e, ⟨he, hl⟩, hu⟩, hall⟩
      refine ⟨⟨e, he, hl, hu⟩, ?_⟩
      intro f hf hfl hfu
      exact hall f ⟨hf, hfl, hfu⟩
    · rintro ⟨⟨e, he, hl, hu⟩, hall⟩
      refine ⟨⟨e, ⟨he, hl⟩, hu⟩, ?_⟩
      rintro f ⟨hf, hfl, hfu⟩
      exact hall f hf hfl hfu
  · exact List.Nodup.filter _ (List.nodup_dedup _)

/-- Witness for the C5 theorem: a URL whose only live edge was verified 30
days ago is returned by find_stale_nodes with a 7-day window, and a URL with
a freshly verified live edge is not. -/
theorem find_stale_nodes_witness :
    ("https://example.com/old" ∈ find_stale_nodes
      ⟨[], [{ source := "Old", target := "Data", relation := "RELATES_TO",
              properties := [], valid_from := 0, valid_to := none,
              last_verified := 3024000, verification_count := 1,
              source_url := "https://example.com/old", confidence := 1/2 },
            { source := "Recent", target := "Data", relation := "RELATES_TO",
              properties := [], valid_from := 0, valid_to := none,
              last_verified := 5616000, verification_count := 1,
              source_url := "https://example.com/recent", confidence := 1/2 }], []⟩
      7 5616000) ∧
    ¬ ("https://example.com/recent" ∈ find_stale_nodes
      ⟨[], [{ source := "Old", target := "Data", relation := "RELATES_TO",
              properties := [], valid_from := 0, valid_to := none,
              last_verified := 3024000, verification_count := 1,
              source_url := "https://example.com/old", confidence := 1/2 },
            { source := "Recent", target := "Data", relation := "RELATES_TO",
              properties := [], valid_from := 0, valid_to := none,
              last_verified := 5616000, verification_count := 1,
              source_url := "https://example.com/recent", confidence := 1/2 }], []⟩
      7 5616000) := by
  constructor
  · exact (find_stale_nodes_characterization _ 7 5616000 _).1.mpr (by decide)
  · intro h
    exact absurd ((find_stale_nodes_characterization _ 7 5616000 _).1.mp h) (by decide)

/-- C3: when the stored document hash equals the freshly scraped content
hash, process_url returns status unchanged_verified (reason
content_unchanged) with edges_updated the number of live edges of that URL,
carries no upsert stats, does not depend on the extractor, creates no node or
edge (nodes unchanged; every edge row keeps all fields except the
verification bookkeeping), increments the verification_count of exactly the
live edges with this source_url by one while setting their last_verified to
now, and refreshes the document state. -/
theorem process_url_unchanged_verified (σ : GraphState) (url content h : String)
    (now : Nat) (extract : String → GraphData)
    (hdoc : get_document_state σ url = some h) :
    (∀ g, process_url σ url (some ⟨content, h⟩) g now =
      process_url σ url (some ⟨content, h⟩) extract now) ∧
    (process_url σ url (some ⟨content, h⟩) extract now).1.status = "unchanged_verified" ∧
    (process_url σ url (some ⟨content, h⟩) extract now).1.reason = "content_unchanged" ∧
    (process_url σ url (some ⟨content, h⟩) extract now).1.edges_updated =
      (σ.edges.filter (fun e => e.isLive && e.source_url = url)).length ∧
    (process_url σ url (some ⟨content, h⟩) extract now).1.stats = none ∧
    (process_url σ url (some ⟨content, h⟩) extract now).2.nodes = σ.nodes ∧
    (process_url σ url (some ⟨content, h⟩) extract now).2.edges.map edgeCoreV =
      σ.edges.map edgeCoreV ∧
    List.Forall₂ (fun a b =>
        a.verification_count = b.verification_count +
          (if b.isLive && b.source_url = url then 1 else 0) ∧
        a.last_verified = (if b.isLive && b.source_url = url then now else b.last_verified))
      (process_url σ url (some ⟨content, h⟩) extract now).2.edges σ.edges ∧
    get_document_state (process_url σ url (some ⟨content, h⟩) extract now).2 url = some h := by
  have hred : ∀ g : String → GraphData,
      process_url σ url (some ⟨content, h⟩) g now =
        ({ status := "unchanged_verified", url := url, reason := "content_unchanged",
           edges_updated :=
             (σ.edges.filter (fun e => e.isLive && e.source_url = url)).length },
         update_document_state
           { σ with edges := σ.edges.map (fun e =>
               if e.isLive && e.source_url = url then
                 { e with last_verified := now,
                          verification_count := e.verification_count + 1 }
               else e) } url h now) := by
    intro g
    simp [process_url, hdoc, mark_edges_verified]
  refine ⟨fun g => (hred g).trans (hred extract).symm, ?_, ?_, ?_, ?_, ?_, ?_, ?_, ?_⟩
  · rw [hred extract]
  · rw [hred extract]
  · rw [hred extract]
  · rw [hred extract]
  · rw [hred extract]
    simp [update_document_state]
  · rw [hred extract]
    simp only [update_document_state, List.map_map]
    refine List.map_congr_left ?_
    intro e _
    by_cases hc : e.isLive && e.source_url = url
    · simp [hc, edgeCoreV, Function.comp]
    · simp [hc, edgeCoreV, Function.comp]
  · rw [hred extract]
    simp only [update_document_state]
    rw [List.forall₂_map_left_iff]
    rw [List.forall₂_same]
    intro e _
    by_cases hc : e.isLive && e.source_url = url
    · simp [hc]
    · simp [hc]
  · rw [hred extract]
    simp [get_document_state, update_document_state]

/-- Witness for the C3 theorem at a concrete store and scrape. -/
theorem process_url_unchanged_verified_witness :
    (process_url
      ⟨[], [{ source := "Alice", target := "Acme", relation := "WORKS_AT",
              properties := [], valid_from := 5, valid_to := none,
              last_verified := 5, verification_count := 4,
              source_url := "https://example.com", confidence := 1/2 }],
       [("https://example.com", ⟨"hash123", 10⟩)]⟩
      "https://example.com" (some ⟨"markdown content", "hash123"⟩)
      (fun _ => ⟨[], []⟩) 50).1.status = "unchanged_verified" ∧
    (process_url
      ⟨[], [{ source := "Alice", target := "Acme", relation := "WORKS_AT",
              properties := [], valid_from := 5, valid_to := none,
              last_verified := 5, verification_count := 4,
              source_url := "https://example.com", confidence := 1/2 }],
       [("https://example.com", ⟨"hash123", 10⟩)]⟩
      "https://example.com" (some ⟨"markdown content", "hash123"⟩)
      (fun _ => ⟨[], []⟩) 50).1.edges_updated = 1 ∧
    (process_url
      ⟨[], [{ source := "Alice", target := "Acme", relation := "WORKS_AT",
              properties := [], valid_from := 5, valid_to := none,
              last_verified := 5, verification_count := 4,
              source_url := "https://example.com", confidence := 1/2 }],
       [("https://example.com", ⟨"hash123", 10⟩)]⟩
      "https://example.com" (some ⟨"markdown content", "hash123"⟩)
      (fun _ => ⟨[], []⟩) 50).1.stats = none := by
  have H := process_url_unchanged_verified
    ⟨[], [{ source := "Alice", target := "Acme", relation := "WORKS_AT",
            properties := [], valid_from := 5, valid_to := none,
            last_verified := 5, verification_count := 4,
            source_url := "https://example.com", confidence := 1/2 }],
     [("https://example.com", ⟨"hash123", 10⟩)]⟩
    "https://example.com" "markdown content" "hash123" 50 (fun _ => ⟨[], []⟩) (by decide)
  exact ⟨H.2.1, H.2.2.2.1.trans (by decide), H.2.2.2.2.1⟩

/-- C1: upserting, at T2 > T1, a proposed edge between the same (source,
relation, target) as the live edge created by an upsert at T1 but with a
different property map closes the old edge (valid_to = T2), creates a new
live edge (valid_from = T2, valid_to = bottom), reports edges_invalidated = 1
and edges_created = 1, and afterwards the snapshot at any T1 < t < T2
contains exactly the old edge while the snapshot at any t > T2 contains
exactly the new edge and not the old one. -/
theorem upsert_diff_invalidates_and_snapshots
    (a b rel : String) (p1 p2 : List (String × String)) (hp : p1 ≠ p2)
    (ns1 ns2 : List GraphNode) (vf1 vf2 : Nat) (c1 c2 : Rat)
    (url1 url2 : String) (T1 T2 : Nat) (hT : T1 < T2) :
    (upsert_data (upsert_data GraphState.empty
        ⟨ns1, [{ source := a, target := b, relation := rel, properties := p1,
                 valid_from := vf1, confidence := c1 }]⟩ url1 T1).2
      ⟨ns2, [{ source := a, target := b, relation := rel, properties := p2,
               valid_from := vf2, confidence := c2 }]⟩ url2 T2).1.edges_invalidated = 1 ∧
    (upsert_data (upsert_data GraphState.empty
        ⟨ns1, [{ source := a, target := b, relation := rel, properties := p1,
                 valid_from := vf1, confidence := c1 }]⟩ url1 T1).2
      ⟨ns2, [{ source := a, target := b, relation := rel, properties := p2,
               valid_from := vf2, confidence := c2 }]⟩ url2 T2).1.edges_created = 1 ∧
    (upsert_data (upsert_data GraphState.empty
        ⟨ns1, [{ source := a, target := b, relation := rel, properties := p1,
                 valid_from := vf1, confidence := c1 }]⟩ url1 T1).2
      ⟨ns2, [{ source := a, target := b, relation := rel, properties := p2,
               valid_from := vf2, confidence := c2 }]⟩ url2 T2).2.edges =
      [{ source := a, target := b, relation := rel,
         properties := p1, valid_from := T1, valid_to := some T2,
         last_verified := T1, verification_count := 1,
         source_url := url1, confidence := c1 },
       { source := a, target := b, relation := rel,
         properties := p2, valid_from := T2, valid_to := none,
         last_verified := T2, verification_count := 1,
         source_url := url2, confidence := c2 }] ∧
    (∀ τ, T1 < τ → τ < T2 →
      snapshotLinks (upsert_data (upsert_data GraphState.empty
          ⟨ns1, [{ source := a, target := b, relation := rel, properties := p1,
                   valid_from := vf1, confidence := c1 }]⟩ url1 T1).2
        ⟨ns2, [{ source := a, target := b, relation := rel, properties := p2,
                 valid_from := vf2, confidence := c2 }]⟩ url2 T2).2 τ =
        [{ source := a, target := b, relation := rel,
           properties := p1, valid_from := T1, valid_to := some T2,
           last_verified := T1, verification_count := 1,
           source_url := url1, confidence := c1 }]) ∧
    (∀ τ, T2 < τ →
      snapshotLinks (upsert_data (upsert_data GraphState.empty
          ⟨ns1, [{ source := a, target := b, relation := rel, properties := p1,
                   valid_from := vf1, confidence := c1 }]⟩ url1 T1).2
        ⟨ns2, [{ source := a, target := b, relation := rel, properties := p2,
                 valid_from := vf2, confidence := c2 }]⟩ url2 T2).2 τ =
        [{ source := a, target := b, relation := rel,
           properties := p2, valid_from := T2, valid_to := none,
           last_verified := T2, verification_count := 1,
           source_url := url2, confidence := c2 }]) := by
  have hσ1 : (upsert_data GraphState.empty
      ⟨ns1, [{ source := a, target := b, relation := rel, properties := p1,
               valid_from := vf1, confidence := c1 }]⟩ url1 T1).2.edges =
      [{ source := a, target := b, relation := rel,
         properties := p1, valid_from := T1, valid_to := none,
         last_verified := T1, verification_count := 1,
         source_url := url1, confidence := c1 }] := by
    simp [upsert_data, applyEdge, hasLiveContent, countLiveKey, newEdge, GraphState.empty]
  have key : ∀ σ : GraphState,
      σ.edges = [{ source := a, target := b, relation := rel,
                   properties := p1, valid_from := T1, valid_to := none,
                   last_verified := T1, verification_count := 1,
                   source_url := url1, confidence := c1 }] →
      (upsert_data σ
        ⟨ns2, [{ source := a, target := b, relation := rel, properties := p2,
                 valid_from := vf2, confidence := c2 }]⟩ url2 T2).1.edges_invalidated = 1 ∧
      (upsert_data σ
        ⟨ns2, [{ source := a, target := b, relation := rel, properties := p2,
                 valid_from := vf2, confidence := c2 }]⟩ url2 T2).1.edges_created = 1 ∧
      (upsert_data σ
        ⟨ns2, [{ source := a, target := b, relation := rel, properties := p2,
                 valid_from := vf2, confidence := c2 }]⟩ url2 T2).2.edges =
        [{ source := a, target := b, relation := rel,
           properties := p1, valid_from := T1, valid_to := some T2,
           last_verified := T1, verification_count := 1,
           source_url := url1, confidence := c1 },
         { source := a, target := b, relation := rel,
           properties := p2, valid_from := T2, valid_to := none,
           last_verified := T2, verification_count := 1,
           source_url := url2, confidence := c2 }] := by
    intro σ hσ
    refine ⟨?_, ?_, ?_⟩ <;>
      simp [upsert_data, applyEdge, hasLiveContent, countLiveKey, newEdge, hσ,
        sameContent, sameKey, TemporalEdge.isLive, closeKeyLive, hp]
  obtain ⟨k1, k2, k3⟩ := key _ hσ1
  refine ⟨k1, k2, k3, ?_, ?_⟩
  · intro τ hτ1 hτ2
    simp [snapshotLinks, k3, le_of_lt hτ1, hτ2, Nat.not_le.mpr hτ2]
  · intro τ hτ
    simp [snapshotLinks, k3, le_of_lt hτ, le_of_lt (lt_trans hT hτ),
      Nat.not_lt.mpr (le_of_lt hτ)]

/-- Witness for the C1 theorem at the spec's S2 scenario (since 2021 versus
since 2022). -/
theorem upsert_diff_invalidates_and_snapshots_witness :
    (upsert_data (upsert_data GraphState.empty
        ⟨[], [{ source := "tesla_inc", target := "austin_tx", relation := "LOCATED_IN",
                properties := [("since", "2021")], valid_from := 100, confidence := 1/2 }]⟩
        "https://example.com/tesla" 100).2
      ⟨[], [{ source := "tesla_inc", target := "austin_tx", relation := "LOCATED_IN",
              properties := [("since", "2022")], valid_from := 200, confidence := 1/2 }]⟩
      "https://example.com/tesla" 200).1.edges_invalidated = 1 ∧
    (upsert_data (upsert_data GraphState.empty
        ⟨[], [{ source := "tesla_inc", target := "austin_tx", relation := "LOCATED_IN",
                properties := [("since", "2021")], valid_from := 100, confidence := 1/2 }]⟩
        "https://example.com/tesla" 100).2
      ⟨[], [{ source := "tesla_inc", target := "austin_tx", relation := "LOCATED_IN",
              properties := [("since", "2022")], valid_from := 200, confidence := 1/2 }]⟩
      "https://example.com/tesla" 200).1.edges_created = 1 ∧
    snapshotLinks (upsert_data (upsert_data GraphState.empty
        ⟨[], [{ source := "tesla_inc", target := "austin_tx", relation := "LOCATED_IN",
                properties := [("since", "2021")], valid_from := 100, confidence := 1/2 }]⟩
        "https://example.com/tesla" 100).2
      ⟨[], [{ source := "tesla_inc", target := "austin_tx", relation := "LOCATED_IN",
              properties := [("since", "2022")], valid_from := 200, confidence := 1/2 }]⟩
      "https://example.com/tesla" 200).2 150 =
      [{ source := "tesla_inc", target := "austin_tx", relation := "LOCATED_IN",
         properties := [("since", "2021")], valid_from := 100, valid_to := some 200,
         last_verified := 100, verification_count := 1,
         source_url := "https://example.com/tesla", confidence := 1/2 }] ∧
    snapshotLinks (upsert_data (upsert_data GraphState.empty
        ⟨[], [{ source := "tesla_inc", target := "austin_tx", relation := "LOCATED_IN",
                properties := [("since", "2021")], valid_from := 100, confidence := 1/2 }]⟩
        "https://example.com/tesla" 100).2
      ⟨[], [{ source := "tesla_inc", target := "austin_tx", relation := "LOCATED_IN",
              properties := [("since", "2022")], valid_from := 200, confidence := 1/2 }]⟩
      "https://example.com/tesla" 200).2 250 =
      [{ source := "tesla_inc", target := "austin_tx", relation := "LOCATED_IN",
         properties := [("since", "2022")], valid_from := 200, valid_to := none,
         last_verified := 200, verification_count := 1,
         source_url := "https://example.com/tesla", confidence := 1/2 }] := by
  have H := upsert_diff_invalidates_and_snapshots "tesla_inc" "austin_tx" "LOCATED_IN"
    [("since", "2021")] [("since", "2022")] (by decide) [] [] 100 200 (1/2) (1/2)
    "https://example.com/tesla" "https://example.com/tesla" 100 200 (by decide)
  exact ⟨H.1, H.2.1, H.2.2.2.1 150 (by decide) (by decide), H.2.2.2.2 250 (by decide)⟩

/-- hasLiveContent as an existential. -/
theorem hasLiveContent_iff (es : List TemporalEdge) (e : TemporalEdge) :
    hasLiveContent es e = true ↔ ∃ a ∈ es, sameContent a e = true ∧ a.isLive = true := by
  simp [hasLiveContent, List.any_eq_true, Bool.and_eq_true]

/-- Case A only touches the verification bookkeeping: the core of every row
is untouched. -/
theorem verifyFirst_map_core (now : Nat) (url : String) (es : List TemporalEdge)
    (e : TemporalEdge) :
    (verifyFirst now url es e).map edgeCore = es.map edgeCore := by
  induction es with
  | nil => rfl
  | cons x xs ih =>
    by_cases hc : (sameContent x e && x.isLive) = true
    · simp [verifyFirst, hc, edgeCore]
    · simp [verifyFirst, hc, ih]

/-- Case A increments the total verification count by exactly one when a live
matching row exists. -/
theorem verifyFirst_total (now : Nat) (url : String) (es : List TemporalEdge)
    (e : TemporalEdge) (h : hasLiveContent es e = true) :
    totalVerifications (verifyFirst now url es e) = totalVerifications es + 1 := by
  induction es with
  | nil => simp [hasLiveContent] at h
  | cons x xs ih =>
    by_cases hc : (sameContent x e && x.isLive) = true
    · simp [verifyFirst, hc, totalVerifications]
      omega
    · have hx : hasLiveContent xs e = true := by
        simp [hasLiveContent] at h ⊢
        rcases h with h | h
        · exact absurd (by simp [Bool.and_eq_true] at hc ⊢; exact h) hc
        · exact h
      simp [verifyFirst, hc, totalVerifications] at ih ⊢
      rw [ih hx]
      omega

/-- Unfolding equation for verifyFirst on a cons cell. -/
theorem verifyFirst_cons (now : Nat) (url : String) (x : TemporalEdge)
    (xs : List TemporalEdge) (e : TemporalEdge) :
    verifyFirst now url (x :: xs) e =
      if sameContent x e && x.isLive then
        { x with last_verified := now,
                 verification_count := x.verification_count + 1,
                 source_url := url } :: xs
      else x :: verifyFirst now url xs e := rfl

/-- Case A leaves a live matching row carrying the fresh verification mark. -/
theorem verifyFirst_mark (now : Nat) (url : String) (es : List TemporalEdge)
    (e : TemporalEdge) (h : hasLiveContent es e = true) :
    ∃ a ∈ verifyFirst now url es e, verifiedMark now url e a := by
  induction es with
  | nil => simp [hasLiveContent] at h
  | cons x xs ih =>
    by_cases hc : (sameContent x e && x.isLive) = true
    · rw [verifyFirst_cons, if_pos hc]
      rw [Bool.and_eq_true] at hc
      exact ⟨_, List.mem_cons_self _ _, hc.1, hc.2, rfl, rfl⟩
    · have hx : hasLiveContent xs e = true := by
        simp [hasLiveContent] at h ⊢
        rcases h with h | h
        · exact absurd (by simp [Bool.and_eq_true] at hc ⊢; exact h) hc
        · exact h
      obtain ⟨a, ha, hm⟩ := ih hx
      rw [verifyFirst_cons, if_neg hc]
      exact ⟨a, List.mem_cons_of_mem x ha, hm⟩

/-- Case A preserves verification marks already present. -/
theorem verifyFirst_mark_persists (now : Nat) (url : String) (es : List TemporalEdge)
    (b e0 : TemporalEdge) (h : ∃ x ∈ es, verifiedMark now url e0 x) :
    ∃ x ∈ verifyFirst now url es b, verifiedMark now url e0 x := by
  induction es with
  | nil => simp at h
  | cons x xs ih =>
    obtain ⟨y, hy, hmk⟩ := h
    by_cases hc : (sameContent x b && x.isLive) = true
    · rw [verifyFirst_cons, if_pos hc]
      rcases List.mem_cons.mp hy with rfl | hy2
      · exact ⟨_, List.mem_cons_self _ _, hmk.1, hmk.2.1, rfl, rfl⟩
      · exact ⟨y, List.mem_cons_of_mem _ hy2, hmk⟩
    · rw [verifyFirst_cons, if_neg hc]
      rcases List.mem_cons.mp hy with rfl | hy2
      · exact ⟨y, List.mem_cons_self _ _, hmk⟩
      · obtain ⟨z, hz, hmz⟩ := ih ⟨y, hy2, hmk⟩
        exact ⟨z, List.mem_cons_of_mem _ hz, hmz⟩

/-- A live content match survives any transformation that preserves the edge
cores. -/
theorem exists_match_of_core_eq (es es' : List TemporalEdge)
    (h : es'.map edgeCore = es.map edgeCore) (e : TemporalEdge)
    (hm : ∃ a ∈ es, sameContent a e = true ∧ a.isLive = true) :
    ∃ a ∈ es', sameContent a e = true ∧ a.isLive = true := by
  obtain ⟨a, ha, hc, hl⟩ := hm
  have hmem : edgeCore a ∈ es'.map edgeCore := by
    rw [h]; exact List.mem_map_of_mem edgeCore ha
  obtain ⟨a', ha', hcore⟩ := List.mem_map.mp hmem
  simp only [edgeCore, Prod.mk.injEq] at hcore
  obtain ⟨h1, h2, h3, h4, h5, h6, h7⟩ := hcore
  refine ⟨a', ha', ?_, ?_⟩
  · simpa [sameContent, sameKey, h1, h2, h3, h4] using hc
  · simpa [TemporalEdge.isLive, h6] using hl

/-- The number of live rows per (source, relation, target) is determined by
the edge cores. -/
theorem liveKeyCount_core (es es' : List TemporalEdge)
    (h : es'.map edgeCore = es.map edgeCore) (s r t : String) :
    liveKeyCount es' s r t = liveKeyCount es s r t := by
  have key : ∀ l : List TemporalEdge,
      liveKeyCount l s r t =
        ((l.map edgeCore).filter (fun c =>
          c.1 = s && c.2.2.1 = r && c.2.1 = t && decide (c.2.2.2.2.2.1 = none))).length := by
    intro l
    induction l with
    | nil => rfl
    | cons x xs ih =>
      simp only [liveKeyCount, List.map_cons, List.filter_cons] at ih ⊢
      by_cases hx : (x.source = s && x.relation = r && x.target = t && x.isLive) = true
      · rw [if_pos hx, if_pos (by simpa [edgeCore, TemporalEdge.isLive] using hx)]
        simp only [List.length_cons, ih]
      · rw [if_neg hx, if_neg (by simpa [edgeCore, TemporalEdge.isLive] using hx)]
        exact ih
  rw [key es', key es, h]

/-- The upsert edge loop under the all-match hypothesis: every proposed edge
falls into Case A, so the fold only verifies -- cores are untouched, nothing
is created or invalidated, edges_verified and the total verification count
grow by the number of proposed edges, every proposed edge ends marked, and
existing marks persist. -/
theorem applyEdge_fold_verify (now : Nat) (url : String) :
    ∀ (bs : List TemporalEdge) (es : List TemporalEdge) (st : UpsertStats),
    (∀ e ∈ bs, ∃ a ∈ es, sameContent a e = true ∧ a.isLive = true) →
    (bs.foldl (applyEdge now url) (es, st)).1.map edgeCore = es.map edgeCore ∧
    (bs.foldl (applyEdge now url) (es, st)).2.edges_created = st.edges_created ∧
    (bs.foldl (applyEdge now url) (es, st)).2.edges_invalidated = st.edges_invalidated ∧
    (bs.foldl (applyEdge now url) (es, st)).2.edges_verified =
      st.edges_verified + bs.length ∧
    totalVerifications (bs.foldl (applyEdge now url) (es, st)).1 =
      totalVerifications es + bs.length ∧
    (∀ e ∈ bs, ∃ a ∈ (bs.foldl (applyEdge now url) (es, st)).1, verifiedMark now url e a) ∧
    (∀ e0, (∃ x ∈ es, verifiedMark now url e0 x) →
      ∃ x ∈ (bs.foldl (applyEdge now url) (es, st)).1, verifiedMark now url e0 x) := by
  intro bs
  induction bs with
  | nil =>
    intro es st _
    refine ⟨rfl, rfl, rfl, by simp, by simp, ?_, ?_⟩
    · intro e he; simp at he
    · intro e0 h; exact h
  | cons b bs ih =>
    intro es st hm
    have hb : hasLiveContent es b = true :=
      (hasLiveContent_iff es b).mpr (hm b (List.mem_cons_self b bs))
    have hstep : (b :: bs).foldl (applyEdge now url) (es, st) =
        bs.foldl (applyEdge now url)
          (verifyFirst now url es b, { st with edges_verified := st.edges_verified + 1 }) := by
      rw [List.foldl_cons]
      congr 1
      simp [applyEdge, hb]
    have hcore1 : (verifyFirst now url es b).map edgeCore = es.map edgeCore :=
      verifyFirst_map_core now url es b
    have hm1 : ∀ e ∈ bs, ∃ a ∈ verifyFirst now url es b,
        sameContent a e = true ∧ a.isLive = true := by
      intro e he
      exact exists_match_of_core_eq es _ hcore1 e (hm e (List.mem_cons_of_mem b he))
    obtain ⟨c1, c2, c3, c4, c5, c6, c7⟩ :=
      ih (verifyFirst now url es b) { st with edges_verified := st.edges_verified + 1 } hm1
    rw [hstep]
    refine ⟨c1.trans hcore1, c2, c3, ?_, ?_, ?_, ?_⟩
    · rw [c4]; simp; omega
    · rw [c5, verifyFirst_total now url es b hb]; simp; omega
    · intro e he
      rcases List.mem_cons.mp he with rfl | he2
      · exact c7 e (verifyFirst_mark now url es e hb)
      · exact c6 e he2
    · intro e0 h0
      exact c7 e0 (verifyFirst_mark_persists now url es b e0 h0)

/-- C2: re-running upsert_data with a bundle whose proposed edges all match
live edges in the store (same content) is a verification-only no-op: the
stats report edges_created = 0, edges_invalidated = 0 and edges_verified =
|B.edges|; every edge row keeps all fields except last_verified,
verification_count and source_url; the total verification count grows by
|B.edges| and each matching live edge ends with last_verified = now and
source_url refreshed to the given URL; and the number of live edges between
each (source, relation, target) is unchanged (in particular it stays at
one). -/
theorem upsert_rerun_verifies_only (σ : GraphState) (B : GraphData) (url : String)
    (now : Nat)
    (hm : ∀ e ∈ B.edges, ∃ a ∈ σ.edges, sameContent a e = true ∧ a.isLive = true) :
    (upsert_data σ B url now).1.edges_created = 0 ∧
    (upsert_data σ B url now).1.edges_invalidated = 0 ∧
    (upsert_data σ B url now).1.edges_verified = B.edges.length ∧
    (upsert_data σ B url now).2.edges.map edgeCore = σ.edges.map edgeCore ∧
    totalVerifications (upsert_data σ B url now).2.edges =
      totalVerifications σ.edges + B.edges.length ∧
    (∀ e ∈ B.edges, ∃ a ∈ (upsert_data σ B url now).2.edges, verifiedMark now url e a) ∧
    (∀ s r t, liveKeyCount (upsert_data σ B url now).2.edges s r t =
      liveKeyCount σ.edges s r t) := by
  obtain ⟨c1, c2, c3, c4, c5, c6, c7⟩ := applyEdge_fold_verify now url B.edges σ.edges
    { nodes_created := (upsertNodes σ.nodes B.nodes).2.1,
      nodes_updated := (upsertNodes σ.nodes B.nodes).2.2 } hm
  exact ⟨c2, c3, by simpa using c4, c1, c5, c6,
    fun s r t => liveKeyCount_core _ _ c1 s r t⟩

/-- Witness for the C2 theorem: re-upserting one exactly matching edge over a
store holding it live verifies and changes no counts. -/
theorem upsert_rerun_verifies_only_witness :
    (upsert_data
      ⟨[], [{ source := "Bob", target := "New York", relation := "LOCATED_IN",
              properties := [], valid_from := 10, valid_to := none,
              last_verified := 10, verification_count := 1,
              source_url := "https://example.com/bob1", confidence := 1/2 }], []⟩
      ⟨[], [{ source := "Bob", target := "New York", relation := "LOCATED_IN",
              properties := [], valid_from := 20, confidence := 1/2 }]⟩
      "https://example.com/bob2" 20).1.edges_created = 0 ∧
    (upsert_data
      ⟨[], [{ source := "Bob", target := "New York", relation := "LOCATED_IN",
              properties := [], valid_from := 10, valid_to := none,
              last_verified := 10, verification_count := 1,
              source_url := "https://example.com/bob1", confidence := 1/2 }], []⟩
      ⟨[], [{ source := "Bob", target := "New York", relation := "LOCATED_IN",
              properties := [], valid_from := 20, confidence := 1/2 }]⟩
      "https://example.com/bob2" 20).1.edges_invalidated = 0 ∧
    (upsert_data
      ⟨[], [{ source := "Bob", target := "New York", relation := "LOCATED_IN",
              properties := [], valid_from := 10, valid_to := none,
              last_verified := 10, verification_count := 1,
              source_url := "https://example.com/bob1", confidence := 1/2 }], []⟩
      ⟨[], [{ source := "Bob", target := "New York", relation := "LOCATED_IN",
              properties := [], valid_from := 20, confidence := 1/2 }]⟩
      "https://example.com/bob2" 20).1.edges_verified = 1 ∧
    liveKeyCount (upsert_data
      ⟨[], [{ source := "Bob", target := "New York", relation := "LOCATED_IN",
              properties := [], valid_from := 10, valid_to := none,
              last_verified := 10, verification_count := 1,
              source_url := "https://example.com/bob1", confidence := 1/2 }], []⟩
      ⟨[], [{ source := "Bob", target := "New York", relation := "LOCATED_IN",
              properties := [], valid_from := 20, confidence := 1/2 }]⟩
      "https://example.com/bob2" 20).2.edges "Bob" "LOCATED_IN" "New York" = 1 := by
  have H := upsert_rerun_verifies_only
    ⟨[], [{ source := "Bob", target := "New York", relation := "LOCATED_IN",
            properties := [], valid_from := 10, valid_to := none,
            last_verified := 10, verification_count := 1,
            source_url := "https://example.com/bob1", confidence := 1/2 }], []⟩
    ⟨[], [{ source := "Bob", target := "New York", relation := "LOCATED_IN",
            properties := [], valid_from := 20, confidence := 1/2 }]⟩
    "https://example.com/bob2" 20 (by decide)
  refine ⟨H.1, H.2.1, H.2.2.1, ?_⟩
  rw [H.2.2.2.2.2.2 "Bob" "LOCATED_IN" "New York"]
  decide

/-- The compression function always returns words reduced below 2^32. -/
theorem shaCompress_bounded (s : Hs) (b : List Nat) : HsBounded (shaCompress s b) := by
  have hp : 0 < pow32 := by decide
  exact ⟨Nat.mod_lt _ hp, Nat.mod_lt _ hp, Nat.mod_lt _ hp, Nat.mod_lt _ hp,
    Nat.mod_lt _ hp, Nat.mod_lt _ hp, Nat.mod_lt _ hp, Nat.mod_lt _ hp⟩

/-- Folding the compression function preserves the word bound. -/
theorem sha_foldl_bounded (blocks : List (List Nat)) (s : Hs) (hs : HsBounded s) :
    HsBounded (blocks.foldl shaCompress s) := by
  induction blocks generalizing s with
  | nil => exact hs
  | cons b bs ih => exact ih (shaCompress s b) (shaCompress_bounded s b)

/-- Appending one word below 2^32 to a bounded accumulator. -/
theorem mulAdd_lt {x y A : Nat} (hx : x < A) (hy : y < pow32) :
    x * pow32 + y < A * pow32 := by
  calc x * pow32 + y < x * pow32 + pow32 := by omega
    _ = (x + 1) * pow32 := by ring
    _ ≤ A * pow32 := Nat.mul_le_mul_right pow32 hx

/-- The SHA-256 digest of any byte message is below 2^256. -/
theorem sha256nat_lt (msg : List Nat) : sha256nat msg < 2 ^ 256 := by
  have hinit : HsBounded
      { a := shaH0.getD 0 0, b := shaH0.getD 1 0, c := shaH0.getD 2 0,
        d := shaH0.getD 3 0, e := shaH0.getD 4 0, f := shaH0.getD 5 0,
        g := shaH0.getD 6 0, h := shaH0.getD 7 0 } := by
    refine ⟨?_, ?_, ?_, ?_, ?_, ?_, ?_, ?_⟩ <;> decide
  have key : ∀ s : Hs, HsBounded s →
      ((((((s.a * pow32 + s.b) * pow32 + s.c) * pow32 + s.d) * pow32 + s.e) *
        pow32 + s.f) * pow32 + s.g) * pow32 + s.h < 2 ^ 256 := by
    intro s hs
    obtain ⟨ha, hb, hc, hd, he, hf, hg, hh⟩ := hs
    have b1 : s.a * pow32 + s.b < pow32 * pow32 := mulAdd_lt ha hb
    have b2 : (s.a * pow32 + s.b) * pow32 + s.c < pow32 * pow32 * pow32 :=
      mulAdd_lt b1 hc
    have b3 : ((s.a * pow32 + s.b) * pow32 + s.c) * pow32 + s.d <
        pow32 * pow32 * pow32 * pow32 := mulAdd_lt b2 hd
    have b4 : (((s.a * pow32 + s.b) * pow32 + s.c) * pow32 + s.d) * pow32 + s.e <
        pow32 * pow32 * pow32 * pow32 * pow32 := mulAdd_lt b3 he
    have b5 : ((((s.a * pow32 + s.b) * pow32 + s.c) * pow32 + s.d) * pow32 + s.e) *
        pow32 + s.f < pow32 * pow32 * pow32 * pow32 * pow32 * pow32 := mulAdd_lt b4 hf
    have b6 : (((((s.a * pow32 + s.b) * pow32 + s.c) * pow32 + s.d) * pow32 + s.e) *
        pow32 + s.f) * pow32 + s.g <
        pow32 * pow32 * pow32 * pow32 * pow32 * pow32 * pow32 := mulAdd_lt b5 hg
    have b7 : ((((((s.a * pow32 + s.b) * pow32 + s.c) * pow32 + s.d) * pow32 + s.e) *
        pow32 + s.f) * pow32 + s.g) * pow32 + s.h <
        pow32 * pow32 * pow32 * pow32 * pow32 * pow32 * pow32 * pow32 := mulAdd_lt b6 hh
    exact lt_of_lt_of_eq b7 (by norm_num [pow32])
  exact key (sha256state msg) (sha_foldl_bounded _ _ hinit)

/-- C4 counterexample: compute_hash is a fixed 64-hex-character digest, so it
cannot be injective on the infinitely many property maps -- there exist two
edges with different property maps and equal hashes (by pigeonhole; no
explicit collision is exhibited). -/
theorem compute_hash_not_injective_cex :
    ¬ ∀ e1 e2 : TemporalEdge, e1.properties ≠ e2.properties →
        e1.compute_hash ≠ e2.compute_hash := by
  intro hinj
  obtain ⟨m, n, hmn, hfeq⟩ := Finite.exists_ne_map_eq_of_infinite
    (fun k : ℕ => (⟨sha256nat (utf8Bytes ((probeEdge k).source ++ (probeEdge k).relation ++
      (probeEdge k).target ++ canonicalJson (probeEdge k).properties)),
      sha256nat_lt _⟩ : Fin (2 ^ 256)))
  have hprops : (probeEdge m).properties ≠ (probeEdge n).properties := by
    simp only [probeEdge, List.cons.injEq, Prod.mk.injEq, and_true, true_and, ne_eq]
    intro h
    apply hmn
    have hd := congrArg String.data h
    have := congrArg List.length hd
    simpa using this
  have hnat : sha256nat (utf8Bytes ((probeEdge m).source ++ (probeEdge m).relation ++
      (probeEdge m).target ++ canonicalJson (probeEdge m).properties)) =
      sha256nat (utf8Bytes ((probeEdge n).source ++ (probeEdge n).relation ++
      (probeEdge n).target ++ canonicalJson (probeEdge n).properties)) :=
    congrArg Fin.val hfeq
  have hhash : (probeEdge m).compute_hash = (probeEdge n).compute_hash := by
    unfold TemporalEdge.compute_hash sha256hex
    exact congrArg hexOfNat256 hnat
  exact absurd hhash (hinj _ _ hprops)

/-- C4 (amended): compute_hash depends only on source, relation, target and
the canonical JSON of the property map -- two edges equal in those four
fields hash identically even when valid_from (or source_url, confidence, or
any temporal field) differs; the digest is always a 64-character hex string;
and differing property maps give different hashes whenever their SHA-256
digests differ, as they do at the repository test's concrete inputs (year
2003 versus year 2004) -- though, the digest being a fixed-length hash,
injectivity cannot hold for all property maps. -/
theorem compute_hash_spec :
    (∀ e1 e2 : TemporalEdge, e1.source = e2.source → e1.relation = e2.relation →
      e1.target = e2.target → e1.properties = e2.properties →
      e1.compute_hash = e2.compute_hash) ∧
    (∀ e : TemporalEdge, e.compute_hash.length = 64) ∧
    ({ source := "tesla_inc", target := "elon_musk", relation := "FOUNDED_BY",
       properties := [("year", "2003")], valid_from := 0 } : TemporalEdge).compute_hash ≠
      ({ source := "tesla_inc", target := "elon_musk", relation := "FOUNDED_BY",
         properties := [("year", "2004")], valid_from := 0 } : TemporalEdge).compute_hash := by
  refine ⟨?_, ?_, ?_⟩
  · intro e1 e2 h1 h2 h3 h4
    unfold TemporalEdge.compute_hash
    rw [h1, h2, h3, h4]
  · intro e
    unfold TemporalEdge.compute_hash sha256hex hexOfNat256
    simp [String.length]
  · decide

/-- Witness for the C4 theorem: the repository test's two edges with equal
content but different valid_from hash identically, and every hash has 64
characters. -/
theorem compute_hash_spec_witness :
    ({ source := "tesla_inc", target := "elon_musk", relation := "FOUNDED_BY",
       properties := [("year", "2003")], valid_from := 100 } : TemporalEdge).compute_hash =
      ({ source := "tesla_inc", target := "elon_musk", relation := "FOUNDED_BY",
         properties := [("year", "2003")], valid_from := 186500 } : TemporalEdge).compute_hash ∧
    ({ source := "tesla_inc", target := "elon_musk", relation := "FOUNDED_BY",
       properties := [("year", "2003")], valid_from := 100 } : TemporalEdge).compute_hash.length
      = 64 :=
  ⟨compute_hash_spec.1 _ _ rfl rfl rfl rfl, compute_hash_spec.2.1 _⟩

/-- Sanity of the SHA-256 model against the FIPS 180-4 test vector for the
message "abc". -/
theorem sha256hex_abc :
    sha256hex "abc" =
      "ba7816bf8f01cfea414140de5dae2223b00361a396177a9cb410ff61f20015ad" := by
  decide
